import Mathlib

/-!
Shallow embedding of the DOIT Task Manager AI-assistant frontend:
the page controller `AIAssistantPage.js` and the two agent service
modules `foundryAgentAPI.js` and `localAgentAPI.js`.

Network effects are made explicit: every embedded operation takes the
outcome of its fetch round-trip as an argument and returns, alongside
the successor state, the list of requests it issued (in issue order).
JavaScript truthiness on strings and the template-literal rendering of
a missing value as the text "null" are modelled explicitly.
-/

namespace DOIT

/-- Message record as displayed by the page: role, text content and the
ISO timestamp string the code stores in created_at. -/
structure Message where
  role : String
  content : String
  created_at : String
  deriving Repr, DecidableEq

/-- Conversation record as held in the page's cached list: the backend
identifier (the JS object's underscore-id field), title, and the
updated_at timestamp string. -/
structure Conversation where
  _id : String
  title : String
  updated_at : String
  deriving Repr, DecidableEq

/-- Outcome of one fetch plus body-parse round trip.
reply status none models a response whose body failed to parse as JSON
(response.json() rejects); reply status (some b) models a response with
HTTP status and parsed body b; down models a transport-level rejection
of the fetch call itself. -/
inductive FetchOutcome (β : Type) where
  | reply (status : Nat) (body : Option β)
  | down
  deriving Repr, DecidableEq

/-- Requests the embedded code can issue, identified by endpoint and payload. -/
inductive Request where
  | createConv (title : String)
  | postMessage (conversationId : String) (content : String)
  | postGenerateImage (conversationId : String) (prompt : String)
  | getMessagesReq (conversationId : String)
  | deleteConv (conversationId : String)
  | listConvs
  deriving Repr, DecidableEq

/-- JavaScript truthiness of a nullable string: null and the empty
string are falsy, every other string is truthy. -/
def jsTruthyStr : Option String → Bool
  | none => false
  | some s => s != ""

/-- Template-literal rendering of a nullable string: JavaScript
interpolates null as the four characters "null". -/
def jsTemplateOpt : Option String → String
  | none => "null"
  | some s => s

/-- Embedding of the JS logical-or chain a or b on nullable strings
(as in data.detail, falling through to the next alternative when the
field is absent or the empty string, both falsy). -/
def jsOrString (a : Option String) (b : String) : String :=
  match a with
  | some s => if s = "" then b else s
  | none => b

/-- Model of JavaScript String.prototype.trim as used on the input
text: leading and trailing whitespace characters removed. -/
def jsTrim (s : String) : String :=
  ⟨((s.data.dropWhile Char.isWhitespace).reverse.dropWhile Char.isWhitespace).reverse⟩

/-- Key generated on a fresh tab: the literal prefix tab_, the
base-36 fragment of Math.random, an underscore, and the base-36
rendering of Date.now, per getTabSessionKey in all three files. -/
def freshTabKey (rand timeStr : String) : String :=
  "tab_" ++ rand ++ "_" ++ timeStr

/-- Embedding of getTabSessionKey (identical in foundryAgentAPI.js,
localAgentAPI.js and AIAssistantPage.js): reads the tab-scoped storage
slot; a missing or empty value (both falsy) triggers generation and
storage of a fresh key. Returns the key and the updated storage slot. -/
def getTabSessionKey (stored : Option String) (rand timeStr : String) :
    String × Option String :=
  match stored with
  | some k =>
    if k = "" then (freshTabKey rand timeStr, some (freshTabKey rand timeStr))
    else (k, some k)
  | none => (freshTabKey rand timeStr, some (freshTabKey rand timeStr))

/-- Outgoing header set; a field holds none when the corresponding
header is absent from the built object. -/
structure Headers where
  contentType : Option String
  authorization : Option String
  tabSessionKey : Option String
  deriving Repr, DecidableEq

/-- Embedding of getAuthHeaders in foundryAgentAPI.js: Content-Type is
always set, Authorization only when the stored token is truthy, and the
tab session key always. Returns the headers and the updated tab-storage
slot. -/
def foundryGetAuthHeaders (token stored : Option String) (rand timeStr : String) :
    Headers × Option String :=
  let tk := getTabSessionKey stored rand timeStr
  ({ contentType := some "application/json",
     authorization :=
       if jsTruthyStr token then some ("Bearer " ++ jsTemplateOpt token) else none,
     tabSessionKey := some tk.1 }, tk.2)

/-- Embedding of getHeaders in localAgentAPI.js: the Authorization
header is set unconditionally from a template literal, so a missing
token yields the value Bearer null. -/
def localGetHeaders (token stored : Option String) (rand timeStr : String) :
    Headers × Option String :=
  let tk := getTabSessionKey stored rand timeStr
  ({ contentType := some "application/json",
     authorization := some ("Bearer " ++ jsTemplateOpt token),
     tabSessionKey := some tk.1 }, tk.2)

/-- Embedding of getAuthHeaders in AIAssistantPage.js: same shape as the
local service's builder, Authorization set unconditionally. -/
def pageGetAuthHeaders (token stored : Option String) (rand timeStr : String) :
    Headers × Option String :=
  let tk := getTabSessionKey stored rand timeStr
  ({ contentType := some "application/json",
     authorization := some ("Bearer " ++ jsTemplateOpt token),
     tabSessionKey := some tk.1 }, tk.2)

/-! ### Agent service layer: response handling (foundryAgentAPI.js vs localAgentAPI.js) -/

/-- Error-message fields a backend error body may carry. -/
structure ErrorFields where
  detail : Option String
  error : Option String
  deriving Repr, DecidableEq

/-- Response.ok of the Fetch API: status in the 2xx range. -/
def resOk (status : Nat) : Bool := decide (200 ≤ status) && decide (status < 300)

/-- Failure of an embedded agent call: transport rejection, body-parse
rejection, or the Error thrown by the status check with its message. -/
inductive AgentFailure where
  | network
  | badJson
  | request (msg : String)
  deriving Repr, DecidableEq

/-- Response handling shared by every foundryAgentAPI.js operation:
await the parsed body, then, when the response is not ok, throw an
Error whose message is data.detail, else data.error, else the
operation's fallback text; otherwise return the body. -/
def foundryHandle {β : Type} (errOf : β → ErrorFields) (fallback : String)
    (outcome : FetchOutcome β) : Except AgentFailure β :=
  match outcome with
  | .down => .error .network
  | .reply _ none => .error .badJson
  | .reply status (some data) =>
    if resOk status then .ok data
    else .error (.request (jsOrString (errOf data).detail
        (jsOrString (errOf data).error fallback)))

/-- Response handling shared by every localAgentAPI.js operation: the
promise chain only parses the body and never consults the HTTP status. -/
def localHandle {β : Type} (outcome : FetchOutcome β) : Except AgentFailure β :=
  match outcome with
  | .down => .error .network
  | .reply _ none => .error .badJson
  | .reply _ (some data) => .ok data

/-- Parsed body of the create-conversation endpoint, with the optional
error-message fields an error body may carry. -/
structure CreateRespBody where
  success : Bool
  conversation : Option Conversation
  detail : Option String
  error : Option String
  deriving Repr, DecidableEq

/-- Embedding of foundryAgentAPI.createConversation: one POST to the
conversations endpoint, then the shared status-checking handler with
this operation's fallback message. -/
def foundryCreateConversation (title : String) (outcome : FetchOutcome CreateRespBody) :
    List Request × Except AgentFailure CreateRespBody :=
  ([Request.createConv title],
   foundryHandle (fun d => ⟨d.detail, d.error⟩) "Failed to create conversation" outcome)

/-- Embedding of localAgentAPI.createConversation: one POST to the
conversations endpoint, body parsed and returned with no status check. -/
def localCreateConversation (title : String) (outcome : FetchOutcome CreateRespBody) :
    List Request × Except AgentFailure CreateRespBody :=
  ([Request.createConv title], localHandle outcome)

/-! ### Page controller state and operations (AIAssistantPage.js) -/

/-- React state of AIAssistantPage relevant to the claims: the cached
conversation list, the active conversation, the displayed messages, the
input text and the two flags. -/
structure PageState where
  conversations : List Conversation
  activeConversation : Option Conversation
  messages : List Message
  inputText : String
  isLoading : Bool
  isTyping : Bool
  deriving Repr, DecidableEq

/-- Parsed body of the page's create-conversation call. -/
structure CreateConversationBody where
  success : Bool
  conversation : Conversation
  deriving Repr, DecidableEq

/-- Parsed body of the page's send-message call; message is none when
the field is absent (falsy) in the response. -/
structure SendMessageBody where
  success : Bool
  message : Option Message
  deriving Repr, DecidableEq

/-- Parsed body of the page's generate-image call. -/
structure GenerateImageBody where
  success : Bool
  message : Message
  deriving Repr, DecidableEq

/-- Parsed body of the page's message-history call. -/
structure MessagesBody where
  success : Bool
  messages : List Message
  deriving Repr, DecidableEq

/-- Embedding of createNewConversation: on a parsed body with success
the new conversation is prepended to the cached list, made active, the
message list cleared, and the conversation returned; on a caught
exception or a non-success body the state is untouched and null (none)
is returned. Exactly one request is issued, with the hard-coded title. -/
def createNewConversation (s : PageState) (resp : FetchOutcome CreateConversationBody) :
    PageState × List Request × Option Conversation :=
  match resp with
  | .down => (s, [Request.createConv "New Conversation"], none)
  | .reply _ none => (s, [Request.createConv "New Conversation"], none)
  | .reply _ (some data) =>
    if data.success then
      ({ s with conversations := data.conversation :: s.conversations,
                activeConversation := some data.conversation,
                messages := [] },
       [Request.createConv "New Conversation"], some data.conversation)
    else
      (s, [Request.createConv "New Conversation"], none)

/-- Embedding of sendMessage: guard on trimmed input and the loading
flag; resolve the target conversation, creating one when none is active
(abort on creation failure); append the optimistic user message, clear
the input, raise both flags; then reconcile the send response, appending
exactly the returned message object on success and firing the
conversation-list reload. now is the timestamp the code takes from new
Date(). Returns the successor state and the issued requests in order. -/
def sendMessage (s : PageState) (now : String)
    (createResp : FetchOutcome CreateConversationBody)
    (sendResp : FetchOutcome SendMessageBody) : PageState × List Request :=
  if jsTrim s.inputText = "" ∨ s.isLoading = true then (s, [])
  else
    let messageContent := s.inputText
    match (match s.activeConversation with
           | some c => (s, ([] : List Request), some c)
           | none => createNewConversation s createResp) with
    | (s1, reqs1, none) => (s1, reqs1)
    | (s1, reqs1, some conv) =>
      let userMessage : Message :=
        { role := "user", content := messageContent, created_at := now }
      let s2 := { s1 with messages := s1.messages ++ [userMessage],
                          inputText := "", isLoading := true, isTyping := true }
      let req := Request.postMessage conv._id messageContent
      match sendResp with
      | .down => ({ s2 with isTyping := false, isLoading := false }, reqs1 ++ [req])
      | .reply _ none => ({ s2 with isTyping := false, isLoading := false }, reqs1 ++ [req])
      | .reply _ (some data) =>
        if data.success then
          match data.message with
          | some m =>
            ({ s2 with messages := s2.messages ++ [m],
                       isTyping := false, isLoading := false },
             reqs1 ++ [req, Request.listConvs])
          | none => ({ s2 with isTyping := false, isLoading := false }, reqs1 ++ [req])
        else ({ s2 with isTyping := false, isLoading := false }, reqs1 ++ [req])

/-- Embedding of generateImage: same structure as sendMessage, with the
optimistic echo synthesised as a caption and the image endpoint; on a
success body the returned message object is appended unconditionally. -/
def generateImage (s : PageState) (now : String)
    (createResp : FetchOutcome CreateConversationBody)
    (genResp : FetchOutcome GenerateImageBody) : PageState × List Request :=
  if jsTrim s.inputText = "" ∨ s.isLoading = true then (s, [])
  else
    let prompt := s.inputText
    match (match s.activeConversation with
           | some c => (s, ([] : List Request), some c)
           | none => createNewConversation s createResp) with
    | (s1, reqs1, none) => (s1, reqs1)
    | (s1, reqs1, some conv) =>
      let userMessage : Message :=
        { role := "user", content := "Generate image: " ++ prompt, created_at := now }
      let s2 := { s1 with messages := s1.messages ++ [userMessage],
                          inputText := "", isLoading := true, isTyping := true }
      let req := Request.postGenerateImage conv._id prompt
      match genResp with
      | .down => ({ s2 with isTyping := false, isLoading := false }, reqs1 ++ [req])
      | .reply _ none => ({ s2 with isTyping := false, isLoading := false }, reqs1 ++ [req])
      | .reply _ (some data) =>
        if data.success then
          ({ s2 with messages := s2.messages ++ [data.message],
                     isTyping := false, isLoading := false },
           reqs1 ++ [req, Request.listConvs])
        else ({ s2 with isTyping := false, isLoading := false }, reqs1 ++ [req])

/-- Embedding of loadMessages: on a parsed success body the displayed
list is replaced wholesale by the server's list; caught exceptions and
non-success bodies leave the state untouched. -/
def loadMessages (s : PageState) (conversationId : String)
    (resp : FetchOutcome MessagesBody) : PageState × List Request :=
  match resp with
  | .down => (s, [Request.getMessagesReq conversationId])
  | .reply _ none => (s, [Request.getMessagesReq conversationId])
  | .reply _ (some data) =>
    if data.success then
      ({ s with messages := data.messages }, [Request.getMessagesReq conversationId])
    else (s, [Request.getMessagesReq conversationId])

/-- State the activeConversation effect reaches synchronously on
selecting conv, before any network activity: messages cleared. -/
def selectConversationCleared (s : PageState) (conv : Conversation) : PageState :=
  { s with activeConversation := some conv, messages := [] }

/-- Embedding of selecting a conversation: the effect hook clears the
displayed messages first, then loads the selected conversation's
history. -/
def selectConversation (s : PageState) (conv : Conversation)
    (resp : FetchOutcome MessagesBody) : PageState × List Request :=
  loadMessages (selectConversationCleared s conv) conv._id resp

/-- Embedding of deleteConversation: the awaited fetch result is never
inspected (neither status nor body), so any resolved response is
followed by filtering the cached list and, when the deleted id is the
active one, clearing selection and messages; only a transport rejection
lands in catch and leaves the state untouched. -/
def deleteConversation (s : PageState) (conversationId : String)
    (resp : FetchOutcome Unit) : PageState × List Request :=
  match resp with
  | .down => (s, [Request.deleteConv conversationId])
  | .reply _ _ =>
    let convs := s.conversations.filter (fun c => c._id != conversationId)
    match s.activeConversation with
    | some a =>
      if a._id = conversationId then
        ({ s with conversations := convs, activeConversation := none, messages := [] },
         [Request.deleteConv conversationId])
      else ({ s with conversations := convs }, [Request.deleteConv conversationId])
    | none => ({ s with conversations := convs }, [Request.deleteConv conversationId])

/-- Recognises a conversation-creation request in an issued-request log. -/
def isCreateReq : Request → Bool
  | .createConv _ => true
  | _ => false

/-- Conversation produced by a create-conversation round trip, if any:
some only when the body parsed and carried success. -/
def createdConversation : FetchOutcome CreateConversationBody → Option Conversation
  | .reply _ (some data) => if data.success then some data.conversation else none
  | _ => none

/-- Send round trips on which the page's success branch does not run:
a caught exception, an unparsable body, or a body lacking success or
a message. -/
def sendFailed : FetchOutcome SendMessageBody → Prop
  | .down => True
  | .reply _ none => True
  | .reply _ (some d) => d.success = false ∨ d.message = none

/-! ### Sample data for concrete evaluations -/

/-- Sample conversation record. -/
def convA : Conversation := { _id := "c1", title := "Alpha", updated_at := "2026-01-01" }

/-- Second sample conversation record. -/
def convB : Conversation := { _id := "c2", title := "Beta", updated_at := "2026-01-02" }

/-- Sample user message. -/
def msgU : Message := { role := "user", content := "hello", created_at := "t0" }

/-- Sample assistant message. -/
def msgA : Message := { role := "assistant", content := "hi there", created_at := "t1" }

/-- Sample page state with an active conversation and pending input. -/
def st1 : PageState :=
  { conversations := [convA], activeConversation := some convA, messages := [msgU],
    inputText := "How do I plan a sprint?", isLoading := false, isTyping := false }

/-- Sample page state whose active conversation is the first of two. -/
def st6 : PageState :=
  { conversations := [convA, convB], activeConversation := some convA, messages := [msgU],
    inputText := "", isLoading := false, isTyping := false }

/-- Sample page state with no active conversation and pending input. -/
def st7 : PageState :=
  { conversations := [convB], activeConversation := none, messages := [],
    inputText := "Hello", isLoading := false, isTyping := false }

/-- Sample page state with whitespace-only input. -/
def st10 : PageState :=
  { conversations := [], activeConversation := none, messages := [],
    inputText := "   ", isLoading := false, isTyping := false }

/-! ### Helper lemmas -/

/-- A freshly generated tab key is never the empty string. -/
theorem freshTabKey_ne_empty (r t : String) : freshTabKey r t ≠ "" := by
  intro h
  have h2 : (freshTabKey r t).length = (0 : Nat) := by rw [h]; rfl
  simp [freshTabKey, String.length_append] at h2
  exact absurd h2.1.2 (by decide)

/-- Distinct random fragments of equal length generate distinct tab keys. -/
theorem freshTabKey_inj_ne (r1 t1 r2 t2 : String)
    (hlen : r1.length = r2.length) (hne : r1 ≠ r2) :
    freshTabKey r1 t1 ≠ freshTabKey r2 t2 := by
  intro h
  have hd := congrArg String.data h
  simp [freshTabKey, String.data_append] at hd
  apply hne
  have h4 : r1.data = r2.data := (List.append_inj hd hlen).1
  cases r1; cases r2; simp_all

/-- Conversations surviving deleteConversation on any resolved response:
the cached list filtered on the deleted id. -/
theorem deleteConversation_resolved_convs (s : PageState) (cid : String)
    (status : Nat) (b : Option Unit) :
    (deleteConversation s cid (FetchOutcome.reply status b)).1.conversations
      = s.conversations.filter (fun c => c._id != cid) := by
  rcases h : s.activeConversation with _ | a
  · simp [deleteConversation, h]
  · by_cases ha : a._id = cid <;> simp [deleteConversation, h, ha]

/-- Filtering one present id out of a duplicate-free conversation list
drops exactly one element. -/
theorem filter_id_length (l : List Conversation) (cid : String)
    (hnd : (l.map Conversation._id).Nodup) (hmem : cid ∈ l.map Conversation._id) :
    (l.filter (fun c => c._id != cid)).length + 1 = l.length := by
  induction l with
  | nil => simp at hmem
  | cons c t ih =>
    simp only [List.map_cons, List.nodup_cons] at hnd
    by_cases hc : c._id = cid
    · have hnotin : cid ∉ t.map Conversation._id := by rw [← hc]; exact hnd.1
      have hall : t.filter (fun x => x._id != cid) = t := by
        apply List.filter_eq_self.mpr
        intro a ha
        simp only [bne_iff_ne, ne_eq]
        intro heq
        exact hnotin (by rw [← heq]; exact List.mem_map_of_mem _ ha)
      simp [List.filter_cons, hc, hall]
    · have hmem2 : cid ∈ t.map Conversation._id := by
        rw [List.map_cons] at hmem
        rcases List.mem_cons.mp hmem with h | h
        · exact absurd h.symm hc
        · exact h
      have ht := ih hnd.2 hmem2
      have hbne : (c._id != cid) = true := by simpa using hc
      simp [List.filter_cons, hbne]
      omega

/-! ### Claim theorems -/

/-- C9: within one tab session the session-key getter is stable — after
any first call (whatever the storage held), a second call with fresh
randomness returns the value of the first — and two fresh tab sessions
(empty tab-scoped storage) with distinct equal-length random fragments
produce distinct identifiers. -/
theorem getTabSessionKey_stable_and_fresh_distinct
    (stored : Option String) (r1 t1 r2 t2 : String)
    (hlen : r1.length = r2.length) (hne : r1 ≠ r2) :
    (getTabSessionKey (getTabSessionKey stored r1 t1).2 r2 t2).1
      = (getTabSessionKey stored r1 t1).1
    ∧ (getTabSessionKey none r1 t1).1 ≠ (getTabSessionKey none r2 t2).1 := by
  constructor
  · rcases stored with _ | k
    · simp [getTabSessionKey, freshTabKey_ne_empty r1 t1]
    · by_cases hk : k = ""
      · simp [getTabSessionKey, hk, freshTabKey_ne_empty r1 t1]
      · simp [getTabSessionKey, hk]
  · simpa [getTabSessionKey] using freshTabKey_inj_ne r1 t1 r2 t2 hlen hne

/-- C9 witness: concrete first and second calls agree, and two fresh
sessions with different random fragments differ. -/
theorem getTabSessionKey_stable_and_fresh_distinct_witness :
    ("aaaaaaaaaaaa" : String).length = ("bbbbbbbbbbbb" : String).length
    ∧ ("aaaaaaaaaaaa" : String) ≠ "bbbbbbbbbbbb"
    ∧ ((getTabSessionKey (getTabSessionKey (some "existing") "aaaaaaaaaaaa" "t1").2
          "bbbbbbbbbbbb" "t2").1
        = (getTabSessionKey (some "existing") "aaaaaaaaaaaa" "t1").1
      ∧ (getTabSessionKey none "aaaaaaaaaaaa" "t1").1
          ≠ (getTabSessionKey none "bbbbbbbbbbbb" "t2").1) :=
  ⟨by decide, by decide,
   getTabSessionKey_stable_and_fresh_distinct (some "existing") "aaaaaaaaaaaa" "t1"
     "bbbbbbbbbbbb" "t2" (by decide) (by decide)⟩

/-- C4 counterexample: with no credential in storage, the localAgentAPI
and page header builders still emit an Authorization header, with the
template-literal value Bearer null — the claim requires the header to be
absent for every builder in that case. -/
theorem headers_no_token_still_authorization :
    (localGetHeaders none none "abc" "def").1.authorization = some "Bearer null"
    ∧ (pageGetAuthHeaders none none "abc" "def").1.authorization = some "Bearer null" :=
  ⟨rfl, rfl⟩

/-- C4 amended: every builder always emits the tab session-key header
and the JSON content-type header; only the foundryAgentAPI builder
includes Authorization exactly when a truthy credential is stored, while
the localAgentAPI builder and the page builder (two identical
definitions) always include Authorization, rendering a missing
credential as Bearer null. -/
theorem header_builders_contract (token stored : Option String) (r t : String) :
    ((foundryGetAuthHeaders token stored r t).1.contentType = some "application/json"
      ∧ (foundryGetAuthHeaders token stored r t).1.tabSessionKey
          = some (getTabSessionKey stored r t).1
      ∧ (foundryGetAuthHeaders token stored r t).1.authorization
          = (if jsTruthyStr token then some ("Bearer " ++ jsTemplateOpt token) else none))
    ∧ ((localGetHeaders token stored r t).1.contentType = some "application/json"
      ∧ (localGetHeaders token stored r t).1.tabSessionKey
          = some (getTabSessionKey stored r t).1
      ∧ (localGetHeaders token stored r t).1.authorization
          = some ("Bearer " ++ jsTemplateOpt token))
    ∧ pageGetAuthHeaders token stored r t = localGetHeaders token stored r t :=
  ⟨⟨rfl, rfl, rfl⟩, ⟨rfl, rfl, rfl⟩, rfl⟩

/-- C3 counterexample: a localAgentAPI call whose response has HTTP
status 500 and a parsed body resolves successfully with that body — it
is not a thrown or rejected failure, so the two variants do not share
the claimed non-2xx error contract. -/
theorem localAgent_non2xx_resolves :
    (localCreateConversation "Local AI Chat"
        (FetchOutcome.reply 500 (some ⟨false, none, none, none⟩))).2
      = Except.ok ⟨false, none, none, none⟩ := rfl

/-- C3 amended: the foundry variant turns any non-2xx response with a
parsed body into a thrown failure whose message is the body's detail
field, else its error field, else the operation's generic fallback; the
local variant never consults the status and resolves with the parsed
body; both issue exactly one request per invocation (no retry). -/
theorem agent_client_error_contract {β : Type} (errOf : β → ErrorFields)
    (fallback : String) (status : Nat) (body : β) (title : String)
    (outcome : FetchOutcome CreateRespBody)
    (hbad : resOk status = false) :
    foundryHandle errOf fallback (FetchOutcome.reply status (some body))
        = Except.error (.request (jsOrString (errOf body).detail
            (jsOrString (errOf body).error fallback)))
    ∧ localHandle (FetchOutcome.reply status (some body)) = Except.ok body
    ∧ (foundryCreateConversation title outcome).1 = [Request.createConv title]
    ∧ (localCreateConversation title outcome).1 = [Request.createConv title] := by
  refine ⟨?_, rfl, rfl, rfl⟩
  simp [foundryHandle, hbad]

/-- C3 amended witness: concrete 500 response against both variants. -/
theorem agent_client_error_contract_witness :
    resOk 500 = false
    ∧ (foundryHandle (fun d : CreateRespBody => ⟨d.detail, d.error⟩)
          "Failed to create conversation"
          (FetchOutcome.reply 500 (some ⟨false, none, none, some "boom"⟩))
        = Except.error (.request (jsOrString none
            (jsOrString (some "boom") "Failed to create conversation")))
      ∧ localHandle (FetchOutcome.reply 500
            (some (⟨false, none, none, some "boom"⟩ : CreateRespBody)))
          = Except.ok ⟨false, none, none, some "boom"⟩
      ∧ (foundryCreateConversation "Agent Chat" FetchOutcome.down).1
          = [Request.createConv "Agent Chat"]
      ∧ (localCreateConversation "Agent Chat" FetchOutcome.down).1
          = [Request.createConv "Agent Chat"]) :=
  ⟨rfl, agent_client_error_contract (fun d : CreateRespBody => ⟨d.detail, d.error⟩)
     "Failed to create conversation" 500 ⟨false, none, none, some "boom"⟩
     "Agent Chat" FetchOutcome.down rfl⟩

/-- C5 counterexample: deleting a conversation over a response with HTTP
status 500 (a backend failure) still removes the entry from the cached
list — the code never inspects the response, so the list does not stay
unchanged on non-2xx as claimed. -/
theorem deleteConversation_non2xx_removes_entry :
    (deleteConversation ⟨[⟨"c1", "Chat", "2026"⟩], none, [], "", false, false⟩ "c1"
        (FetchOutcome.reply 500 none)).1.conversations
      ≠ [⟨"c1", "Chat", "2026"⟩] := by decide

/-- C5 amended: deleteConversation filters the deleted id out of the
cached list whenever the HTTP request resolves, whatever the status; the
cached list (indeed the whole state) is left unchanged only when the
request itself is rejected at the transport level. -/
theorem deleteConversation_removes_whenever_resolved (s : PageState) (cid : String)
    (status : Nat) (b : Option Unit) :
    (deleteConversation s cid (FetchOutcome.reply status b)).1.conversations
        = s.conversations.filter (fun c => c._id != cid)
    ∧ (deleteConversation s cid FetchOutcome.down).1 = s :=
  ⟨deleteConversation_resolved_convs s cid status b, rfl⟩

/-- C2: selecting a conversation clears the displayed messages in the
same synchronous step (before any network activity), and once the load
resolves with the server's success body the displayed list is exactly
the server's message list for the selected id; the only intermediate
display is the empty list, never another conversation's messages. -/
theorem selectConversation_clears_then_loads (s : PageState) (conv : Conversation)
    (status : Nat) (serverMsgs : List Message) :
    (selectConversationCleared s conv).messages = []
    ∧ (selectConversationCleared s conv).activeConversation = some conv
    ∧ (selectConversation s conv (FetchOutcome.reply status (some ⟨true, serverMsgs⟩))).1.messages
        = serverMsgs
    ∧ (selectConversation s conv (FetchOutcome.reply status (some ⟨true, serverMsgs⟩))).2
        = [Request.getMessagesReq conv._id] := by
  refine ⟨rfl, rfl, ?_, ?_⟩ <;>
    simp [selectConversation, selectConversationCleared, loadMessages]

/-- C1: with an active conversation, a send whose round trip returns a
success body carrying one message object ends with the displayed list
equal to the previous list followed by exactly the one optimistic
user-role entry and then exactly the one message object from the server
response (the assistant reply); nothing else — in particular no echo of
the sent text — is appended. -/
theorem sendMessage_success_appends_user_then_reply (s : PageState) (now : String)
    (conv : Conversation) (cr : FetchOutcome CreateConversationBody)
    (status : Nat) (m : Message)
    (hin : ¬(jsTrim s.inputText = "" ∨ s.isLoading = true))
    (hact : s.activeConversation = some conv) :
    (sendMessage s now cr (FetchOutcome.reply status (some ⟨true, some m⟩))).1.messages
      = s.messages ++ [{ role := "user", content := s.inputText, created_at := now }, m] := by
  simp [sendMessage, if_neg hin, hact]

/-- C1 witness: concrete successful send appends the user entry and
then the server's reply. -/
theorem sendMessage_success_appends_user_then_reply_witness :
    ¬(jsTrim st1.inputText = "" ∨ st1.isLoading = true)
    ∧ st1.activeConversation = some convA
    ∧ (sendMessage st1 "t9" FetchOutcome.down
          (FetchOutcome.reply 200 (some ⟨true, some msgA⟩))).1.messages
        = st1.messages
            ++ [{ role := "user", content := st1.inputText, created_at := "t9" }, msgA] :=
  ⟨by decide, rfl,
   sendMessage_success_appends_user_then_reply st1 "t9" convA FetchOutcome.down 200 msgA
     (by decide) rfl⟩

/-- C8: on a send whose round trip fails (caught exception, unparsable
body, or a body without success or message), the typing indicator and
the loading flag end cleared, and the displayed list is exactly the list
just after the optimistic append — the user message stays, and no error
entry of any role is appended. -/
theorem sendMessage_failure_frame (s : PageState) (now : String) (conv : Conversation)
    (cr : FetchOutcome CreateConversationBody) (sendResp : FetchOutcome SendMessageBody)
    (hin : ¬(jsTrim s.inputText = "" ∨ s.isLoading = true))
    (hact : s.activeConversation = some conv)
    (hf : sendFailed sendResp) :
    (sendMessage s now cr sendResp).1.messages
        = s.messages ++ [{ role := "user", content := s.inputText, created_at := now }]
    ∧ (sendMessage s now cr sendResp).1.isTyping = false
    ∧ (sendMessage s now cr sendResp).1.isLoading = false := by
  cases sendResp with
  | down => simp [sendMessage, if_neg hin, hact]
  | reply st2 body =>
    cases body with
    | none => simp [sendMessage, if_neg hin, hact]
    | some d =>
      have hf2 : d.success = false ∨ d.message = none := hf
      rcases hf2 with h | h
      · simp [sendMessage, if_neg hin, hact, h]
      · by_cases hs : d.success
        · simp [sendMessage, if_neg hin, hact, hs, h]
        · simp [sendMessage, if_neg hin, hact, hs]

/-- C8 witness: concrete transport failure leaves the optimistic user
message in place and clears both flags. -/
theorem sendMessage_failure_frame_witness :
    ¬(jsTrim st1.inputText = "" ∨ st1.isLoading = true)
    ∧ st1.activeConversation = some convA
    ∧ sendFailed (FetchOutcome.down : FetchOutcome SendMessageBody)
    ∧ ((sendMessage st1 "t9" FetchOutcome.down FetchOutcome.down).1.messages
          = st1.messages ++ [{ role := "user", content := st1.inputText, created_at := "t9" }]
      ∧ (sendMessage st1 "t9" FetchOutcome.down FetchOutcome.down).1.isTyping = false
      ∧ (sendMessage st1 "t9" FetchOutcome.down FetchOutcome.down).1.isLoading = false) :=
  ⟨by decide, rfl, trivial,
   sendMessage_failure_frame st1 "t9" convA FetchOutcome.down FetchOutcome.down
     (by decide) rfl trivial⟩

/-- C10: with empty or whitespace-only input, or with the loading flag
already set, both sendMessage and generateImage return the state
untouched and issue no request at all. -/
theorem send_generate_guard_noop (s : PageState) (now : String)
    (cr : FetchOutcome CreateConversationBody) (sr : FetchOutcome SendMessageBody)
    (gr : FetchOutcome GenerateImageBody)
    (h : jsTrim s.inputText = "" ∨ s.isLoading = true) :
    sendMessage s now cr sr = (s, [])
    ∧ generateImage s now cr gr = (s, []) := by
  constructor
  · unfold sendMessage
    rw [if_pos h]
  · unfold generateImage
    rw [if_pos h]

/-- C10 witness: whitespace-only input makes both operations no-ops. -/
theorem send_generate_guard_noop_witness :
    (jsTrim st10.inputText = "" ∨ st10.isLoading = true)
    ∧ (sendMessage st10 "t" FetchOutcome.down FetchOutcome.down = (st10, [])
      ∧ generateImage st10 "t" FetchOutcome.down FetchOutcome.down = (st10, [])) :=
  ⟨by decide,
   send_generate_guard_noop st10 "t" FetchOutcome.down FetchOutcome.down FetchOutcome.down
     (by decide)⟩

/-- C6: on a resolved delete of the active conversation the selection is
cleared and the displayed list emptied alongside the filtered cache; on
a resolved delete of a non-active conversation the state changes only in
the cached list, which keeps selection and messages intact; and with
duplicate-free ids a present id loses exactly one entry. -/
theorem deleteConversation_effects (s : PageState) (cid : String)
    (status : Nat) (b : Option Unit) :
    (∀ a, s.activeConversation = some a → a._id = cid →
        (deleteConversation s cid (FetchOutcome.reply status b)).1
          = { s with conversations := s.conversations.filter (fun c => c._id != cid),
                     activeConversation := none, messages := [] })
    ∧ (∀ a, s.activeConversation = some a → a._id ≠ cid →
        (deleteConversation s cid (FetchOutcome.reply status b)).1
          = { s with conversations := s.conversations.filter (fun c => c._id != cid) })
    ∧ (s.activeConversation = none →
        (deleteConversation s cid (FetchOutcome.reply status b)).1
          = { s with conversations := s.conversations.filter (fun c => c._id != cid) })
    ∧ ((s.conversations.map Conversation._id).Nodup →
        cid ∈ s.conversations.map Conversation._id →
        (deleteConversation s cid (FetchOutcome.reply status b)).1.conversations.length + 1
          = s.conversations.length) := by
  refine ⟨?_, ?_, ?_, ?_⟩
  · intro a ha hid
    simp [deleteConversation, ha, hid]
  · intro a ha hid
    simp [deleteConversation, ha, hid]
  · intro h
    simp [deleteConversation, h]
  · intro hnd hmem
    rw [deleteConversation_resolved_convs s cid status b]
    exact filter_id_length s.conversations cid hnd hmem

/-- C6 witness: deleting the active conversation of a concrete
two-conversation state clears selection and messages and drops exactly
one cached entry. -/
theorem deleteConversation_effects_witness :
    st6.activeConversation = some convA
    ∧ convA._id = "c1"
    ∧ (deleteConversation st6 "c1" (FetchOutcome.reply 204 none)).1
        = { st6 with conversations := st6.conversations.filter (fun c => c._id != "c1"),
                     activeConversation := none, messages := [] }
    ∧ ((st6.conversations.map Conversation._id).Nodup
      ∧ "c1" ∈ st6.conversations.map Conversation._id
      ∧ (deleteConversation st6 "c1" (FetchOutcome.reply 204 none)).1.conversations.length + 1
          = st6.conversations.length) :=
  ⟨rfl, rfl, (deleteConversation_effects st6 "c1" 204 none).1 convA rfl rfl,
   by decide, by decide,
   (deleteConversation_effects st6 "c1" 204 none).2.2.2 (by decide) (by decide)⟩

/-- C7: a non-empty send with no active conversation first creates one
conversation — on a success body it is prepended to the cache and is the
active conversation, the request log starts with the creation request
followed by the message post to the new conversation's id, and exactly
one creation request is ever issued; when creation yields no
conversation the whole send returns the state untouched, with the
creation attempt as the only request and no message post. -/
theorem sendMessage_no_active_creates_first (s : PageState) (now : String)
    (hin : ¬(jsTrim s.inputText = "" ∨ s.isLoading = true))
    (hact : s.activeConversation = none) :
    (∀ status c sendResp,
        (sendMessage s now (FetchOutcome.reply status (some ⟨true, c⟩)) sendResp).1.conversations
            = c :: s.conversations
        ∧ (sendMessage s now (FetchOutcome.reply status (some ⟨true, c⟩))
              sendResp).1.activeConversation = some c
        ∧ (sendMessage s now (FetchOutcome.reply status (some ⟨true, c⟩)) sendResp).2.take 2
            = [Request.createConv "New Conversation", Request.postMessage c._id s.inputText]
        ∧ (sendMessage s now (FetchOutcome.reply status (some ⟨true, c⟩)) sendResp).2.filter
              isCreateReq = [Request.createConv "New Conversation"])
    ∧ (∀ createResp sendResp, createdConversation createResp = none →
        sendMessage s now createResp sendResp = (s, [Request.createConv "New Conversation"])) := by
  constructor
  · intro status c sendResp
    cases sendResp with
    | down =>
      simp [sendMessage, if_neg hin, hact, createNewConversation, isCreateReq]
    | reply st2 body =>
      cases body with
      | none =>
        simp [sendMessage, if_neg hin, hact, createNewConversation, isCreateReq]
      | some d =>
        by_cases hs : d.success
        · cases hm : d.message with
          | none =>
            simp [sendMessage, if_neg hin, hact, createNewConversation, isCreateReq, hs, hm]
          | some m =>
            simp [sendMessage, if_neg hin, hact, createNewConversation, isCreateReq, hs, hm]
        · simp [sendMessage, if_neg hin, hact, createNewConversation, isCreateReq, hs]
  · intro createResp sendResp hnone
    cases createResp with
    | down => simp [sendMessage, if_neg hin, hact, createNewConversation]
    | reply st2 body =>
      cases body with
      | none => simp [sendMessage, if_neg hin, hact, createNewConversation]
      | some d =>
        by_cases hs : d.success
        · simp [createdConversation, hs] at hnone
        · simp [sendMessage, if_neg hin, hact, createNewConversation, hs]

/-- C7 witness: with no active conversation, a concrete successful
creation is prepended, activated and posted to; a concrete failed
creation aborts the send with only the creation request issued. -/
theorem sendMessage_no_active_creates_first_witness :
    ¬(jsTrim st7.inputText = "" ∨ st7.isLoading = true)
    ∧ st7.activeConversation = none
    ∧ ((sendMessage st7 "t2" (FetchOutcome.reply 200 (some ⟨true, convA⟩))
          FetchOutcome.down).1.conversations = convA :: st7.conversations
      ∧ (sendMessage st7 "t2" (FetchOutcome.reply 200 (some ⟨true, convA⟩))
            FetchOutcome.down).1.activeConversation = some convA
      ∧ (sendMessage st7 "t2" (FetchOutcome.reply 200 (some ⟨true, convA⟩))
            FetchOutcome.down).2.take 2
          = [Request.createConv "New Conversation", Request.postMessage convA._id st7.inputText]
      ∧ (sendMessage st7 "t2" (FetchOutcome.reply 200 (some ⟨true, convA⟩))
            FetchOutcome.down).2.filter isCreateReq = [Request.createConv "New Conversation"])
    ∧ (createdConversation FetchOutcome.down = none
      ∧ sendMessage st7 "t2" FetchOutcome.down FetchOutcome.down
          = (st7, [Request.createConv "New Conversation"])) :=
  ⟨by decide, rfl,
   (sendMessage_no_active_creates_first st7 "t2" (by decide) rfl).1 200 convA FetchOutcome.down,
   rfl,
   (sendMessage_no_active_creates_first st7 "t2" (by decide) rfl).2 FetchOutcome.down
     FetchOutcome.down rfl⟩

end DOIT
